import Mathlib

/-!
Shallow embedding of pkg/operator/apiserver/controller/workload/workload.go
(the generic workload controller of library-go): the sync control loop, the
management-state gate, the status-condition derivation, the version gate and
the anti-affinity policy. External collaborators (operator client, kube
client, pod lister, status store, version recorder) are modelled as explicit
inputs and recorded effects; Go errors are modelled as Option String (none is
the nil error), and a Go runtime panic is Except.error ().
-/

namespace Workload

/-- A Go error value: none is the nil error interface, some m an error whose
Error() method returns m. -/
abbrev GoErr := Option String

/-- operatorv1.ConditionStatus: "True", "False" or "Unknown". -/
inductive ConditionStatus where
  | ctrue
  | cfalse
  | cunknown
deriving DecidableEq, Repr

/-- operatorv1.OperatorCondition with the fields the controller writes. -/
structure OperatorCondition where
  type : String
  status : ConditionStatus
  reason : String := ""
  message : String := ""
deriving DecidableEq, Repr

/-- The fields of an appsv1.Deployment observation that updateOperatorStatus
reads: ObjectMeta.Name, ObjectMeta.Generation, Status.ObservedGeneration,
Spec.Replicas (a nilable pointer), Status.AvailableReplicas and
Status.UpdatedReplicas. -/
structure Deployment where
  name : String
  generation : Int
  observedGeneration : Int
  replicas : Option Int
  availableReplicas : Int
  updatedReplicas : Int
deriving DecidableEq, Repr

/-- The Controller fields read by sync and updateOperatorStatus. -/
structure Controller where
  conditionsPrefix : String
  operatorNamespace : String
  targetNamespace : String
  targetOperandVersion : String
  operandNamePrefix : String
deriving DecidableEq, Repr

/-- The Go loop building the degraded message:
for each err in errs, message = message + err.Error() + newline.
Calling Error() on a nil error is a nil-pointer dereference, a panic. -/
def errsMessage (acc : String) : List GoErr → Except Unit String
  | [] => .ok acc
  | none :: _ => .error ()
  | some e :: rest => errsMessage (acc ++ e ++ "\n") rest

/-- kerrors.NewAggregate: nil errors are filtered out; an empty remainder is
the nil error, a single error is returned as is, several are joined. -/
def newAggregate (errs : List GoErr) : Option String :=
  match errs.filterMap id with
  | [] => none
  | [e] => some e
  | es => some ("[" ++ String.intercalate ", " es ++ "]")

/-- Lines 209-219: the workloadDegraded condition derived from the sync
errors. With a non-empty error list the message loop runs (and panics on a
nil element); with an empty list only the status is set to False. -/
def workloadDegradedOf (wd0 : OperatorCondition) (errs : List GoErr) :
    Except Unit OperatorCondition :=
  if errs.length > 0 then
    (errsMessage "" errs).map fun m =>
      { wd0 with status := .ctrue, reason := "SyncError", message := m }
  else .ok { wd0 with status := .cfalse }

/-- One v1helpers.UpdateStatus call: the conditions passed (in argument
order) and whether the updateGenerationFn mutator was included. -/
structure StatusWrite where
  conditions : List OperatorCondition
  recordsGeneration : Bool
deriving DecidableEq, Repr

/-- What one updateOperatorStatus invocation does: the single status write it
performs, the SetVersion call if any (operand key, version), and the error it
returns. -/
structure UpdateResult where
  write : StatusWrite
  setVersion : Option (String × String)
  ret : Option String
deriving DecidableEq, Repr

/-- Lines 265-268: desiredReplicas defaults to 1 when Spec.Replicas is nil. -/
def desiredReplicasOf (w : Deployment) : Int :=
  match w.replicas with
  | some r => r
  | none => 1

/-- The result of the external call
deployment.PodContainersStatus(workload, podsLister): either an error or the
per-pod container status strings. -/
abbrev PodContainersResult := Except String (List String)

/-- Lines 278-281: the per-pod container diagnostics, with the error of the
external call downgraded to an inline message. -/
def podContainersStatusOf (pcs : PodContainersResult) : List String :=
  match pcs with
  | .error e => ["failed to get pod containers details: " ++ e]
  | .ok l => l

/-- Controller.updateOperatorStatus (lines 153-315), with the external pod
lister call's result supplied as an input. Except.error () is a Go panic
(Error() called on a nil error in the message-building loops). The status
store write itself is external and recorded, not interpreted. -/
def updateOperatorStatus (c : Controller) (workload : Option Deployment)
    (operatorConfigAtHighestGeneration preconditionsReady : Bool)
    (errs : List GoErr) (podContainers : PodContainersResult) :
    Except Unit UpdateResult :=
  let deploymentAvailableCondition : OperatorCondition :=
    { type := c.conditionsPrefix ++ "Deployment" ++ "Available", status := .ctrue }
  let workloadDegradedCondition : OperatorCondition :=
    { type := c.conditionsPrefix ++ "WorkloadDegraded", status := .cfalse }
  let deploymentDegradedCondition : OperatorCondition :=
    { type := c.conditionsPrefix ++ "DeploymentDegraded", status := .cfalse }
  let deploymentProgressingCondition : OperatorCondition :=
    { type := c.conditionsPrefix ++ "Deployment" ++ "Progressing", status := .cfalse }
  if preconditionsReady = false then
    match errsMessage "" errs with
    | .error u => .error u
    | .ok m =>
      let message :=
        if m.length = 0 then "the operator didn't specify what preconditions are missing"
        else m
      let dd := { deploymentDegradedCondition with
        status := .ctrue, reason := "PreconditionNotFulfilled", message := message }
      let da := { deploymentAvailableCondition with
        status := .cfalse, reason := "PreconditionNotFulfilled" }
      let dp := { deploymentProgressingCondition with
        status := .cfalse, reason := "PreconditionNotFulfilled" }
      .ok { write := { conditions := [da, dd, dp, workloadDegradedCondition],
                       recordsGeneration := false },
            setVersion := none,
            ret := newAggregate errs }
  else
    match workloadDegradedOf workloadDegradedCondition errs with
    | .error u => .error u
    | .ok wd =>
      match workload with
      | none =>
        let message := "deployment/" ++ c.targetNamespace ++ ": could not be retrieved"
        let da := { deploymentAvailableCondition with
          status := .cfalse, reason := "NoDeployment", message := message }
        let dp := { deploymentProgressingCondition with
          status := .ctrue, reason := "NoDeployment", message := message }
        let dd := { deploymentDegradedCondition with
          status := .ctrue, reason := "NoDeployment", message := message }
        .ok { write := { conditions := [da, dd, dp, wd], recordsGeneration := false },
              setVersion := none,
              ret := newAggregate errs }
      | some w =>
        let da :=
          if w.availableReplicas = 0 then
            { deploymentAvailableCondition with
              status := .cfalse, reason := "NoPod",
              message := "no " ++ w.name ++ "." ++ c.targetNamespace ++
                " pods available on any node." }
          else
            { deploymentAvailableCondition with status := .ctrue, reason := "AsExpected" }
        let workloadAtHighestGeneration := w.generation = w.observedGeneration
        let dp :=
          if workloadAtHighestGeneration then
            { deploymentProgressingCondition with status := .cfalse, reason := "AsExpected" }
          else
            { deploymentProgressingCondition with
              status := .ctrue, reason := "NewGeneration",
              message := "deployment/" ++ w.name ++ "." ++ c.targetNamespace ++
                ": observed generation is " ++ toString w.observedGeneration ++
                ", desired generation is " ++ toString w.generation ++ "." }
        let desiredReplicas := desiredReplicasOf w
        let workloadHasAllPodsAvailable := w.availableReplicas ≥ desiredReplicas
        let dd :=
          if workloadHasAllPodsAvailable then
            { deploymentDegradedCondition with status := .cfalse, reason := "AsExpected" }
          else
            let numNonAvailablePods := desiredReplicas - w.availableReplicas
            let podContainersStatus := podContainersStatusOf podContainers
            { deploymentDegradedCondition with
              status := .ctrue, reason := "UnavailablePod",
              message := toString numNonAvailablePods ++ " of " ++
                toString desiredReplicas ++
                " requested instances are unavailable for " ++ w.name ++ "." ++
                c.targetNamespace ++ " (" ++
                String.intercalate ", " podContainersStatus ++ ")" }
        let workloadHasAllPodsUpdated := w.updatedReplicas = desiredReplicas
        let setVersion :=
          if workloadAtHighestGeneration ∧ workloadHasAllPodsAvailable ∧
              workloadHasAllPodsUpdated ∧ operatorConfigAtHighestGeneration = true then
            some (c.operandNamePrefix ++ "-" ++ w.name, c.targetOperandVersion)
          else none
        .ok { write := { conditions := [da, dd, dp, wd], recordsGeneration := true },
              setVersion := setVersion,
              ret := if errs.length > 0 then newAggregate errs else none }

/-- The result of the external namespace Delete call: success, a NotFound
error, or another error. -/
inductive DeleteResult where
  | success
  | notFound
  | failed (msg : String)
deriving DecidableEq, Repr

/-- What Controller.shouldSync returns, plus its recorded effects: how many
times the namespace delete was invoked and whether a warning event was
emitted. -/
structure ShouldSyncResult where
  run : Bool
  err : Option String
  deleteCalls : Nat
  warned : Bool
deriving DecidableEq, Repr

/-- Controller.shouldSync (lines 135-150). ManagementState is the string it
is in Go; a value that is none of the three known states hits the default
branch, which emits a warning event. -/
def shouldSync (managementState : String) (deleteResult : DeleteResult) :
    ShouldSyncResult :=
  if managementState = "Managed" then
    { run := true, err := none, deleteCalls := 0, warned := false }
  else if managementState = "Unmanaged" then
    { run := false, err := none, deleteCalls := 0, warned := false }
  else if managementState = "Removed" then
    match deleteResult with
    | .failed m => { run := false, err := some m, deleteCalls := 1, warned := false }
    | _ => { run := false, err := none, deleteCalls := 1, warned := false }
  else
    { run := false, err := none, deleteCalls := 0, warned := true }

/-- The external inputs of one sync pass: the GetOperatorState fetch result,
the management state it carries, the namespace-delete outcome (consumed only
on the Removed path), the delegate's PreconditionFulfilled result, the
delegate's Sync result, and the pod-lister call result. -/
structure SyncInputs where
  getOperatorStateErr : Option String
  managementState : String
  deleteResult : DeleteResult
  preconditionFulfilled : Bool
  preconditionErr : GoErr
  delegateWorkload : Option Deployment
  delegateConfigAtHighestGeneration : Bool
  delegateErrs : List GoErr
  podContainers : PodContainersResult
deriving Repr

/-- The observable outcome of one sync pass: recorded effects and the
returned error. -/
structure PassOutcome where
  deleteCalls : Nat
  warned : Bool
  statusWrites : List StatusWrite
  versionSets : List (String × String)
  err : Option String
deriving DecidableEq, Repr

/-- Controller.sync (lines 115-132). Except.error () is a Go panic. -/
def sync (c : Controller) (i : SyncInputs) : Except Unit PassOutcome :=
  match i.getOperatorStateErr with
  | some e =>
    .ok { deleteCalls := 0, warned := false, statusWrites := [],
          versionSets := [], err := some e }
  | none =>
    let s := shouldSync i.managementState i.deleteResult
    if s.run = false then
      .ok { deleteCalls := s.deleteCalls, warned := s.warned, statusWrites := [],
            versionSets := [], err := s.err }
    else
      if i.preconditionFulfilled = false ∨ i.preconditionErr ≠ none then
        (updateOperatorStatus c none false false [i.preconditionErr]
            i.podContainers).map fun r =>
          { deleteCalls := s.deleteCalls, warned := s.warned,
            statusWrites := [r.write],
            versionSets := r.setVersion.toList.map id,
            err := r.ret }
      else
        (updateOperatorStatus c i.delegateWorkload
            i.delegateConfigAtHighestGeneration true i.delegateErrs
            i.podContainers).map fun r =>
          { deleteCalls := s.deleteCalls, warned := s.warned,
            statusWrites := [r.write],
            versionSets := r.setVersion.toList.map id,
            err := r.ret }

/-- A Go map[string]string: none is the nil map (len 0, readable, but a
write to it panics); some l is a map given as an association list whose keys
are pairwise distinct. -/
abbrev GoMap := Option (List (String × String))

/-- Lookup in a Go string map given as an association list. -/
def mapGet (m : List (String × String)) (k : String) : Option String :=
  (m.find? fun p => p.1 = k).map Prod.snd

/-- Assignment m[k] = v on a Go string map: replaces the binding of k if
present, appends it otherwise. -/
def mapSet (m : List (String × String)) (k v : String) : List (String × String) :=
  if m.any (fun p => p.1 = k) then
    m.map fun p => if p.1 = k then (k, v) else p
  else m ++ [(k, v)]

/-- len of a possibly-nil Go map. -/
def goMapLen (m : GoMap) : Nat :=
  match m with
  | none => 0
  | some l => l.length

/-- metav1.LabelSelector, with the MatchLabels field the code uses. -/
structure LabelSelector where
  matchLabels : GoMap
deriving DecidableEq, Repr

/-- corev1.PodAffinityTerm with the fields the code sets. -/
structure PodAffinityTerm where
  topologyKey : String
  labelSelector : Option LabelSelector
deriving DecidableEq, Repr

/-- corev1.PodAntiAffinity restricted to the required terms the code sets. -/
structure PodAntiAffinity where
  requiredDuringSchedulingIgnoredDuringExecution : List PodAffinityTerm
deriving DecidableEq, Repr

/-- corev1.Affinity restricted to the pod anti-affinity the code sets. -/
structure Affinity where
  podAntiAffinity : Option PodAntiAffinity
deriving DecidableEq, Repr

/-- corev1.PodSpec restricted to the Affinity field. -/
structure PodSpec where
  affinity : Option Affinity
deriving DecidableEq, Repr

/-- corev1.PodTemplateSpec: its Labels map and its PodSpec. -/
structure PodTemplateSpec where
  labels : GoMap
  spec : PodSpec
deriving DecidableEq, Repr

/-- appsv1.DeploymentSpec with the fields EnsureAtMostOnePodPerNode uses. -/
structure DeploymentSpec where
  selector : Option LabelSelector
  template : PodTemplateSpec
deriving DecidableEq, Repr

/-- EnsureAtMostOnePodPerNode (lines 320-364). The Go function mutates the
spec in place; the model returns the spec as it stands when the function
returns, paired with the returned error. Except.error () is the panic of
assigning into a nil Labels map (line 329). -/
def EnsureAtMostOnePodPerNode (spec : DeploymentSpec) (component : String) :
    Except Unit (DeploymentSpec × Option String) :=
  if component.length = 0 then
    .ok (spec, some "please specify the component name")
  else
    let antiAffinityKey := component ++ "-anti-affinity"
    let antiAffinityValue := "true"
    match spec.template.labels with
    | none => .error ()
    | some templateLabels =>
      let spec :=
        { spec with template :=
          { spec.template with
            labels := some (mapSet templateLabels antiAffinityKey antiAffinityValue) } }
      match spec.selector with
      | none => .ok (spec, some "deployment is missing spec.selector")
      | some sel =>
        if goMapLen sel.matchLabels = 0 then
          .ok (spec, some "deployment is missing spec.selector.matchLabels")
        else
          let antiAffinityMatchLabels :=
            (sel.matchLabels.getD []).foldl
              (fun m kv => mapSet m kv.1 kv.2)
              [(antiAffinityKey, antiAffinityValue)]
          let term : PodAffinityTerm :=
            { topologyKey := "kubernetes.io/hostname",
              labelSelector := some ({ matchLabels := some antiAffinityMatchLabels }) }
          let anti : PodAntiAffinity :=
            { requiredDuringSchedulingIgnoredDuringExecution := [term] }
          let aff : Affinity := { podAntiAffinity := some anti }
          let newTemplate : PodTemplateSpec :=
            { labels := spec.template.labels, spec := { affinity := some aff } }
          let spec := { spec with template := newTemplate }
          .ok (spec, none)

/-! Helper lemmas about the embedded primitives. -/

theorem errsMessage_isOk (acc : String) (errs : List GoErr)
    (h : ∀ e ∈ errs, e ≠ none) : ∃ s, errsMessage acc errs = .ok s := by
  induction errs generalizing acc with
  | nil => exact ⟨acc, rfl⟩
  | cons e rest ih =>
    match e with
    | none => exact absurd rfl (h none (List.mem_cons_self _ _))
    | some s =>
      exact ih (acc ++ s ++ "\n") fun x hx => h x (List.mem_cons_of_mem _ hx)

theorem workloadDegradedOf_isOk (wd0 : OperatorCondition) (errs : List GoErr)
    (h : ∀ e ∈ errs, e ≠ none) :
    ∃ wd, workloadDegradedOf wd0 errs = .ok wd ∧ wd.type = wd0.type := by
  unfold workloadDegradedOf
  split
  · obtain ⟨s, hs⟩ := errsMessage_isOk "" errs h
    refine ⟨{ wd0 with status := .ctrue, reason := "SyncError", message := s }, ?_, rfl⟩
    rw [hs]
    rfl
  · exact ⟨_, rfl, rfl⟩

theorem mapGet_mapSet_self (m : List (String × String)) (k v : String) :
    mapGet (mapSet m k v) k = some v := by
  unfold mapGet mapSet
  by_cases hany : m.any (fun p => p.1 = k)
  · rw [if_pos hany, List.find?_map]
    have hp : (fun (p : String × String) => decide (p.1 = k)) ∘
        (fun p => if p.1 = k then (k, v) else p) =
        fun p => decide (p.1 = k) := by
      funext q
      by_cases hq : q.1 = k <;> simp [hq]
    rw [hp]
    obtain ⟨q, hqm, hqk⟩ := List.any_eq_true.mp hany
    rcases hfind : m.find? (fun p => decide (p.1 = k)) with _ | q0
    · rw [List.find?_eq_none] at hfind
      exact absurd hqk (hfind q hqm)
    · have hq0 : q0.1 = k := by simpa using List.find?_some hfind
      simp [hfind, hq0]
  · rw [if_neg hany, List.find?_append]
    have hnone : m.find? (fun p => decide (p.1 = k)) = none := by
      rw [List.find?_eq_none]
      intro x hx
      simp only [decide_eq_true_eq]
      intro hxk
      exact hany (List.any_eq_true.mpr ⟨x, hx, by simp [hxk]⟩)
    have h1 : List.find? (fun p => decide (p.1 = k)) [(k, v)] = some (k, v) :=
      List.find?_cons_of_pos _ (by simp)
    rw [hnone, h1, Option.none_or]
    rfl

theorem mapGet_mapSet_other (m : List (String × String)) (k v k2 : String)
    (hne : k2 ≠ k) : mapGet (mapSet m k v) k2 = mapGet m k2 := by
  unfold mapGet mapSet
  by_cases hany : m.any (fun p => p.1 = k)
  · rw [if_pos hany, List.find?_map]
    have hp : (fun (p : String × String) => decide (p.1 = k2)) ∘
        (fun p => if p.1 = k then (k, v) else p) =
        fun p => decide (p.1 = k2) := by
      funext q
      by_cases hq : q.1 = k
      · simp [hq]
      · simp [hq]
    rw [hp]
    rcases hfind : m.find? (fun p => decide (p.1 = k2)) with _ | q0
    · simp [hfind]
    · have hq0 : q0.1 = k2 := by simpa using List.find?_some hfind
      have hq0k : ¬ q0.1 = k := fun hk => hne (by rw [← hq0, hk])
      simp [hfind, hq0k]
  · rw [if_neg hany, List.find?_append]
    have h2 : List.find? (fun p => decide (p.1 = k2)) [(k, v)] = none := by
      rw [List.find?_eq_none]
      intro x hx
      simp only [List.mem_singleton] at hx
      subst hx
      simp only [decide_eq_true_eq]
      exact fun h => hne h.symm
    rw [h2, Option.or_none]

theorem mapGet_foldl_set (l init : List (String × String))
    (hnd : (l.map Prod.fst).Nodup) (k : String) :
    mapGet (l.foldl (fun m kv => mapSet m kv.1 kv.2) init) k =
      (mapGet l k).or (mapGet init k) := by
  induction l generalizing init with
  | nil => simp [mapGet]
  | cons a t ih =>
    rw [List.foldl_cons]
    rw [List.map_cons, List.nodup_cons] at hnd
    rw [ih _ hnd.2]
    by_cases hk : k = a.1
    · have ht : mapGet t k = none := by
        unfold mapGet
        have hfn : t.find? (fun p => decide (p.1 = k)) = none := by
          rw [List.find?_eq_none]
          intro x hx
          simp only [decide_eq_true_eq]
          intro hxk
          have hxm : x.1 ∈ t.map Prod.fst := List.mem_map_of_mem Prod.fst hx
          rw [hxk, hk] at hxm
          exact hnd.1 hxm
        rw [hfn]
        rfl
      have hhead : mapGet (a :: t) k = some a.2 := by
        unfold mapGet
        rw [List.find?_cons_of_pos _ (by simp [hk.symm])]
        rfl
      rw [ht, hhead, Option.none_or, Option.or_some, hk, mapGet_mapSet_self]
    · have hhead : mapGet (a :: t) k = mapGet t k := by
        unfold mapGet
        rw [List.find?_cons_of_neg _
          (by simp only [decide_eq_true_eq]; exact fun h => hk h.symm)]
      rw [mapGet_mapSet_other init a.1 a.2 k hk, hhead]

theorem updateOperatorStatus_present (c : Controller) (w : Deployment) (cfg : Bool)
    (errs : List GoErr) (pcs : PodContainersResult) (h : ∀ e ∈ errs, e ≠ none) :
    ∃ wd, wd.type = c.conditionsPrefix ++ "WorkloadDegraded" ∧
      updateOperatorStatus c (some w) cfg true errs pcs = .ok
        { write :=
            { conditions :=
                [ (if w.availableReplicas = 0 then
                    { type := c.conditionsPrefix ++ "Deployment" ++ "Available",
                      status := ConditionStatus.cfalse, reason := "NoPod",
                      message := "no " ++ w.name ++ "." ++ c.targetNamespace ++
                        " pods available on any node." }
                  else
                    { type := c.conditionsPrefix ++ "Deployment" ++ "Available",
                      status := ConditionStatus.ctrue, reason := "AsExpected",
                      message := "" }),
                  (if w.availableReplicas ≥ desiredReplicasOf w then
                    { type := c.conditionsPrefix ++ "DeploymentDegraded",
                      status := ConditionStatus.cfalse, reason := "AsExpected",
                      message := "" }
                  else
                    { type := c.conditionsPrefix ++ "DeploymentDegraded",
                      status := ConditionStatus.ctrue, reason := "UnavailablePod",
                      message := toString (desiredReplicasOf w - w.availableReplicas) ++
                        " of " ++ toString (desiredReplicasOf w) ++
                        " requested instances are unavailable for " ++ w.name ++ "." ++
                        c.targetNamespace ++ " (" ++
                        String.intercalate ", " (podContainersStatusOf pcs) ++ ")" }),
                  (if w.generation = w.observedGeneration then
                    { type := c.conditionsPrefix ++ "Deployment" ++ "Progressing",
                      status := ConditionStatus.cfalse, reason := "AsExpected",
                      message := "" }
                  else
                    { type := c.conditionsPrefix ++ "Deployment" ++ "Progressing",
                      status := ConditionStatus.ctrue, reason := "NewGeneration",
                      message := "deployment/" ++ w.name ++ "." ++ c.targetNamespace ++
                        ": observed generation is " ++ toString w.observedGeneration ++
                        ", desired generation is " ++ toString w.generation ++ "." }),
                  wd ],
              recordsGeneration := true },
          setVersion :=
            if w.generation = w.observedGeneration ∧
                w.availableReplicas ≥ desiredReplicasOf w ∧
                w.updatedReplicas = desiredReplicasOf w ∧ cfg = true then
              some (c.operandNamePrefix ++ "-" ++ w.name, c.targetOperandVersion)
            else none,
          ret := if errs.length > 0 then newAggregate errs else none } := by
  obtain ⟨wd, hwd, hty⟩ := workloadDegradedOf_isOk
    { type := c.conditionsPrefix ++ "WorkloadDegraded",
      status := ConditionStatus.cfalse } errs h
  refine ⟨wd, hty, ?_⟩
  simp only [updateOperatorStatus, hwd]
  rfl

theorem updateOperatorStatus_absent (c : Controller) (cfg : Bool)
    (errs : List GoErr) (pcs : PodContainersResult) (h : ∀ e ∈ errs, e ≠ none) :
    ∃ wd, wd.type = c.conditionsPrefix ++ "WorkloadDegraded" ∧
      updateOperatorStatus c none cfg true errs pcs = .ok
        { write :=
            { conditions :=
                [ { type := c.conditionsPrefix ++ "Deployment" ++ "Available",
                    status := ConditionStatus.cfalse, reason := "NoDeployment",
                    message := "deployment/" ++ c.targetNamespace ++
                      ": could not be retrieved" },
                  { type := c.conditionsPrefix ++ "DeploymentDegraded",
                    status := ConditionStatus.ctrue, reason := "NoDeployment",
                    message := "deployment/" ++ c.targetNamespace ++
                      ": could not be retrieved" },
                  { type := c.conditionsPrefix ++ "Deployment" ++ "Progressing",
                    status := ConditionStatus.ctrue, reason := "NoDeployment",
                    message := "deployment/" ++ c.targetNamespace ++
                      ": could not be retrieved" },
                  wd ],
              recordsGeneration := false },
          setVersion := none,
          ret := newAggregate errs } := by
  obtain ⟨wd, hwd, hty⟩ := workloadDegradedOf_isOk
    { type := c.conditionsPrefix ++ "WorkloadDegraded",
      status := ConditionStatus.cfalse } errs h
  refine ⟨wd, hty, ?_⟩
  simp only [updateOperatorStatus, hwd]
  rfl

/-! Claim theorems. -/

/-- C1: the claim states that a pass in which PreconditionFulfilled returns
(false, nil) still performs the precondition-failure status write and that
sync returns nil. On the code it does not: sync wraps the nil error in the
singleton error list, and the precondition-failure message loop in
updateOperatorStatus calls Error() on that nil error, a nil-pointer panic
that happens before any status write. This theorem evaluates the embedded
sync at exactly that input and shows the pass panics. -/
theorem sync_panics_on_unfulfilled_precondition_with_nil_error :
    sync
      { conditionsPrefix := "Test", operatorNamespace := "operator-ns",
        targetNamespace := "target-ns", targetOperandVersion := "4.9.0",
        operandNamePrefix := "operand" }
      { getOperatorStateErr := none, managementState := "Managed",
        deleteResult := .success, preconditionFulfilled := false,
        preconditionErr := none, delegateWorkload := none,
        delegateConfigAtHighestGeneration := false, delegateErrs := [],
        podContainers := .ok [] } = Except.error () := rfl

/-- C8: the condition evaluator is deterministic: two invocations of
updateOperatorStatus on identical inputs (same controller fields, same
workload observation, same delegate-config flag, same precondition-readiness,
same error list, same pod-lister result) produce identical outcomes, in
particular the identical four conditions with the same type, status, reason
and message. -/
theorem updateOperatorStatus_deterministic (ca cb : Controller)
    (wa wb : Option Deployment) (ga gb pa pb : Bool) (ea eb : List GoErr)
    (pca pcb : PodContainersResult) (hc : ca = cb) (hw : wa = wb)
    (hg : ga = gb) (hp : pa = pb) (he : ea = eb) (hpc : pca = pcb) :
    updateOperatorStatus ca wa ga pa ea pca =
      updateOperatorStatus cb wb gb pb eb pcb := by
  rw [hc, hw, hg, hp, he, hpc]

/-- Witness for C8 at a concrete input. -/
theorem updateOperatorStatus_deterministic_witness :
    updateOperatorStatus
      { conditionsPrefix := "W", operatorNamespace := "a", targetNamespace := "b",
        targetOperandVersion := "1.0", operandNamePrefix := "c" }
      (some { name := "d", generation := 2, observedGeneration := 2,
              replicas := some 3, availableReplicas := 3, updatedReplicas := 3 })
      true true [] (.ok []) =
    updateOperatorStatus
      { conditionsPrefix := "W", operatorNamespace := "a", targetNamespace := "b",
        targetOperandVersion := "1.0", operandNamePrefix := "c" }
      (some { name := "d", generation := 2, observedGeneration := 2,
              replicas := some 3, availableReplicas := 3, updatedReplicas := 3 })
      true true [] (.ok []) :=
  updateOperatorStatus_deterministic _ _ _ _ _ _ _ _ _ _ _ _
    rfl rfl rfl rfl rfl rfl

/-- C9: EnsureAtMostOnePodPerNode writes the anti-affinity label into
spec.Template.Labels before validating the selector, so with a non-empty
component name and a nil Template.Labels map it panics on the nil-map
assignment instead of returning an error. -/
theorem ensureAtMostOnePodPerNode_nil_labels_panics (spec : DeploymentSpec)
    (component : String) (hc : component.length ≠ 0)
    (hl : spec.template.labels = none) :
    EnsureAtMostOnePodPerNode spec component = Except.error () := by
  unfold EnsureAtMostOnePodPerNode
  rw [if_neg hc, hl]

/-- Witness for C9 at a concrete input. -/
theorem ensureAtMostOnePodPerNode_nil_labels_panics_witness :
    EnsureAtMostOnePodPerNode
      { selector := some { matchLabels := some [("app", "x")] },
        template := { labels := none, spec := { affinity := none } } }
      "kas" = Except.error () :=
  ensureAtMostOnePodPerNode_nil_labels_panics _ _ (by decide) rfl

/-- C10: EnsureAtMostOnePodPerNode is not atomic on error: with a non-empty
component name and a non-nil Template.Labels map, a call failing because the
selector is nil or because selector.matchLabels is empty returns its error
with an already-mutated spec: the component anti-affinity label has been
added to the pod template labels, while the pod spec (hence its affinity)
is unchanged. -/
theorem ensureAtMostOnePodPerNode_mutates_before_error (spec : DeploymentSpec)
    (component : String) (l : List (String × String))
    (hc : component.length ≠ 0) (hl : spec.template.labels = some l)
    (hsel : spec.selector = none ∨
      ∃ sel, spec.selector = some sel ∧ goMapLen sel.matchLabels = 0) :
    ∃ spec2 e, EnsureAtMostOnePodPerNode spec component = .ok (spec2, some e) ∧
      spec2.template.labels =
        some (mapSet l (component ++ "-anti-affinity") "true") ∧
      mapGet (mapSet l (component ++ "-anti-affinity") "true")
        (component ++ "-anti-affinity") = some "true" ∧
      spec2.template.spec = spec.template.spec ∧
      spec2.selector = spec.selector := by
  rcases hsel with hnone | ⟨sel, hsome, hlen⟩
  · simp only [EnsureAtMostOnePodPerNode, hl, hnone, if_neg hc]
    exact ⟨_, _, rfl, rfl, mapGet_mapSet_self l _ _, rfl, rfl⟩
  · simp only [EnsureAtMostOnePodPerNode, hl, hsome, if_neg hc]
    rw [if_pos hlen]
    exact ⟨_, _, rfl, rfl, mapGet_mapSet_self l _ _, rfl, rfl⟩

/-- Witness for C10 at a concrete input. -/
theorem ensureAtMostOnePodPerNode_mutates_before_error_witness :
    ∃ spec2 e,
      EnsureAtMostOnePodPerNode
        { selector := none,
          template := { labels := some [("z", "1")], spec := { affinity := none } } }
        "kas" = .ok (spec2, some e) ∧
      spec2.template.labels =
        some (mapSet [("z", "1")] ("kas" ++ "-anti-affinity") "true") ∧
      mapGet (mapSet [("z", "1")] ("kas" ++ "-anti-affinity") "true")
        ("kas" ++ "-anti-affinity") = some "true" ∧
      spec2.template.spec =
        ({ selector := none,
           template :=
             { labels := some [("z", "1")],
               spec := { affinity := none } } } : DeploymentSpec).template.spec ∧
      spec2.selector =
        ({ selector := none,
           template :=
             { labels := some [("z", "1")],
               spec := { affinity := none } } } : DeploymentSpec).selector :=
  ensureAtMostOnePodPerNode_mutates_before_error _ _ [("z", "1")]
    (by decide) rfl (Or.inl rfl)

/-- C6: management-state gating of a pass: with Removed the namespace delete
is invoked exactly once, a delete that succeeds or reports not-found yields a
nil pass error with zero status writes, and any other deletion error is
returned; with Unmanaged the pass returns success with no further action;
with an unrecognized state a warning event is emitted and the pass is a
no-op. -/
theorem sync_management_state_gating (c : Controller) (i : SyncInputs) :
    (i.getOperatorStateErr = none → i.managementState = "Removed" →
      (i.deleteResult = DeleteResult.success ∨
        i.deleteResult = DeleteResult.notFound) →
      sync c i = .ok { deleteCalls := 1, warned := false, statusWrites := [],
                       versionSets := [], err := none }) ∧
    (∀ m, i.getOperatorStateErr = none → i.managementState = "Removed" →
      i.deleteResult = DeleteResult.failed m →
      sync c i = .ok { deleteCalls := 1, warned := false, statusWrites := [],
                       versionSets := [], err := some m }) ∧
    (i.getOperatorStateErr = none → i.managementState = "Unmanaged" →
      sync c i = .ok { deleteCalls := 0, warned := false, statusWrites := [],
                       versionSets := [], err := none }) ∧
    (i.getOperatorStateErr = none → i.managementState ≠ "Managed" →
      i.managementState ≠ "Unmanaged" → i.managementState ≠ "Removed" →
      sync c i = .ok { deleteCalls := 0, warned := true, statusWrites := [],
                       versionSets := [], err := none }) := by
  obtain ⟨fetch, ms, dr, pf, pe, dw, dcf, de, pc⟩ := i
  refine ⟨?_, ?_, ?_, ?_⟩
  · intro h1 h2 h3
    simp only at h1 h2
    subst h1; subst h2
    rcases h3 with h | h <;> simp only at h <;> subst h <;> rfl
  · intro m h1 h2 h3
    simp only at h1 h2 h3
    subst h1; subst h2; subst h3
    rfl
  · intro h1 h2
    simp only at h1 h2
    subst h1; subst h2
    rfl
  · intro h1 h2 h3 h4
    simp only at h1 h2 h3 h4
    subst h1
    simp only [sync, shouldSync, if_neg h2, if_neg h3, if_neg h4]
    rw [if_pos trivial]

/-- C4: in a normal-mode pass (state Managed, preconditions ready with a nil
error) where the delegate returns no workload observation, the pass performs
exactly one status write carrying all four condition families, with
Available=False/NoDeployment, Progressing=True/NoDeployment and
DeploymentDegraded=True/NoDeployment all sharing the one message naming the
missing target deployment; no version is recorded. -/
theorem sync_absent_workload_writes_no_deployment (c : Controller)
    (i : SyncInputs) (h1 : i.getOperatorStateErr = none)
    (h2 : i.managementState = "Managed") (h3 : i.preconditionFulfilled = true)
    (h4 : i.preconditionErr = none) (h5 : i.delegateWorkload = none)
    (h6 : ∀ e ∈ i.delegateErrs, e ≠ none) :
    ∃ wd, wd.type = c.conditionsPrefix ++ "WorkloadDegraded" ∧
      sync c i = .ok
        { deleteCalls := 0, warned := false,
          statusWrites :=
            [ { conditions :=
                  [ { type := c.conditionsPrefix ++ "Deployment" ++ "Available",
                      status := ConditionStatus.cfalse, reason := "NoDeployment",
                      message := "deployment/" ++ c.targetNamespace ++
                        ": could not be retrieved" },
                    { type := c.conditionsPrefix ++ "DeploymentDegraded",
                      status := ConditionStatus.ctrue, reason := "NoDeployment",
                      message := "deployment/" ++ c.targetNamespace ++
                        ": could not be retrieved" },
                    { type := c.conditionsPrefix ++ "Deployment" ++ "Progressing",
                      status := ConditionStatus.ctrue, reason := "NoDeployment",
                      message := "deployment/" ++ c.targetNamespace ++
                        ": could not be retrieved" },
                    wd ],
                recordsGeneration := false } ],
          versionSets := [],
          err := newAggregate i.delegateErrs } := by
  obtain ⟨wd, hty, heq⟩ := updateOperatorStatus_absent c
    i.delegateConfigAtHighestGeneration i.delegateErrs i.podContainers h6
  refine ⟨wd, hty, ?_⟩
  simp [sync, shouldSync, h1, h2, h3, h4, h5, heq]
  rfl

/-- Witness for C4 at a concrete input. -/
theorem sync_absent_workload_writes_no_deployment_witness :
    ∃ wd, wd.type = "Test" ++ "WorkloadDegraded" ∧
      sync
        { conditionsPrefix := "Test", operatorNamespace := "operator-ns",
          targetNamespace := "target-ns", targetOperandVersion := "4.9.0",
          operandNamePrefix := "operand" }
        { getOperatorStateErr := none, managementState := "Managed",
          deleteResult := .success, preconditionFulfilled := true,
          preconditionErr := none, delegateWorkload := none,
          delegateConfigAtHighestGeneration := false, delegateErrs := [],
          podContainers := .ok [] } = .ok
        { deleteCalls := 0, warned := false,
          statusWrites :=
            [ { conditions :=
                  [ { type := "Test" ++ "Deployment" ++ "Available",
                      status := ConditionStatus.cfalse, reason := "NoDeployment",
                      message := "deployment/" ++ "target-ns" ++
                        ": could not be retrieved" },
                    { type := "Test" ++ "DeploymentDegraded",
                      status := ConditionStatus.ctrue, reason := "NoDeployment",
                      message := "deployment/" ++ "target-ns" ++
                        ": could not be retrieved" },
                    { type := "Test" ++ "Deployment" ++ "Progressing",
                      status := ConditionStatus.ctrue, reason := "NoDeployment",
                      message := "deployment/" ++ "target-ns" ++
                        ": could not be retrieved" },
                    wd ],
                recordsGeneration := false } ],
          versionSets := [],
          err := newAggregate [] } :=
  sync_absent_workload_writes_no_deployment
    { conditionsPrefix := "Test", operatorNamespace := "operator-ns",
      targetNamespace := "target-ns", targetOperandVersion := "4.9.0",
      operandNamePrefix := "operand" }
    { getOperatorStateErr := none, managementState := "Managed",
      deleteResult := .success, preconditionFulfilled := true,
      preconditionErr := none, delegateWorkload := none,
      delegateConfigAtHighestGeneration := false, delegateErrs := [],
      podContainers := .ok [] }
    rfl rfl rfl rfl rfl (by simp)

/-- C2: on a present workload observation the version is recorded (SetVersion
is called, with the operand key and target operand version) if and only if
all four sub-conditions hold at once: generation equals observedGeneration,
availableReplicas at least desiredReplicas, updatedReplicas equal to
desiredReplicas, and the delegate configuration at its highest generation;
if any of the four fails, no version is recorded. -/
theorem setVersion_iff_four_subconditions (c : Controller) (w : Deployment)
    (cfg : Bool) (errs : List GoErr) (pcs : PodContainersResult)
    (h : ∀ e ∈ errs, e ≠ none) :
    ∃ r, updateOperatorStatus c (some w) cfg true errs pcs = .ok r ∧
      (r.setVersion =
          some (c.operandNamePrefix ++ "-" ++ w.name, c.targetOperandVersion) ↔
        (w.generation = w.observedGeneration ∧
         w.availableReplicas ≥ desiredReplicasOf w ∧
         w.updatedReplicas = desiredReplicasOf w ∧
         cfg = true)) ∧
      (r.setVersion = none ↔
        ¬(w.generation = w.observedGeneration ∧
          w.availableReplicas ≥ desiredReplicasOf w ∧
          w.updatedReplicas = desiredReplicasOf w ∧
          cfg = true)) := by
  obtain ⟨wd, hty, heq⟩ := updateOperatorStatus_present c w cfg errs pcs h
  refine ⟨_, heq, ?_, ?_⟩ <;>
    by_cases hP : (w.generation = w.observedGeneration ∧
      w.availableReplicas ≥ desiredReplicasOf w ∧
      w.updatedReplicas = desiredReplicasOf w ∧ cfg = true) <;>
    simp [hP]

/-- Witness for C2 at a concrete input with all four sub-conditions true. -/
theorem setVersion_iff_four_subconditions_witness :
    ∃ r,
      updateOperatorStatus
        { conditionsPrefix := "Test", operatorNamespace := "operator-ns",
          targetNamespace := "target-ns", targetOperandVersion := "4.9.0",
          operandNamePrefix := "operand" }
        (some { name := "apiserver", generation := 7, observedGeneration := 7,
                replicas := some 3, availableReplicas := 3,
                updatedReplicas := 3 })
        true true [] (.ok []) = .ok r ∧
      r.setVersion = some ("operand" ++ "-" ++ "apiserver", "4.9.0") := by
  obtain ⟨r, heq, hiff, hnone⟩ := setVersion_iff_four_subconditions
    { conditionsPrefix := "Test", operatorNamespace := "operator-ns",
      targetNamespace := "target-ns", targetOperandVersion := "4.9.0",
      operandNamePrefix := "operand" }
    { name := "apiserver", generation := 7, observedGeneration := 7,
      replicas := some 3, availableReplicas := 3, updatedReplicas := 3 }
    true [] (.ok []) (by simp)
  exact ⟨r, heq, hiff.mpr (by refine ⟨rfl, ?_, rfl, rfl⟩; decide)⟩

/-- C3: on a present workload observation, DeploymentDegraded is
False/AsExpected whenever availableReplicas is at least desiredReplicas
(desiredReplicas defaulting to 1 when the replicas field is unset, and strict
overshoot included), and True/UnavailablePod whenever availableReplicas is
below desiredReplicas, with the message reporting the shortfall out of the
desired count. -/
theorem deploymentDegraded_replica_gate (c : Controller) (w : Deployment)
    (cfg : Bool) (errs : List GoErr) (pcs : PodContainersResult)
    (h : ∀ e ∈ errs, e ≠ none) :
    ∃ r da dd dp wd,
      updateOperatorStatus c (some w) cfg true errs pcs = .ok r ∧
      r.write.conditions = [da, dd, dp, wd] ∧
      (w.availableReplicas ≥ desiredReplicasOf w →
        dd = { type := c.conditionsPrefix ++ "DeploymentDegraded",
               status := ConditionStatus.cfalse, reason := "AsExpected",
               message := "" }) ∧
      (w.availableReplicas < desiredReplicasOf w →
        dd = { type := c.conditionsPrefix ++ "DeploymentDegraded",
               status := ConditionStatus.ctrue, reason := "UnavailablePod",
               message := toString (desiredReplicasOf w - w.availableReplicas) ++
                 " of " ++ toString (desiredReplicasOf w) ++
                 " requested instances are unavailable for " ++ w.name ++ "." ++
                 c.targetNamespace ++ " (" ++
                 String.intercalate ", " (podContainersStatusOf pcs) ++ ")" }) := by
  obtain ⟨wd, hty, heq⟩ := updateOperatorStatus_present c w cfg errs pcs h
  refine ⟨_, _, _, _, wd, heq, rfl, ?_, ?_⟩
  · intro hge
    rw [if_pos hge]
  · intro hlt
    rw [if_neg (not_le.mpr hlt)]

/-- Witness for C3: desired 3, available 1 reports a shortfall of 2 of 3;
desired 3, available 4 (surge) is not degraded. -/
theorem deploymentDegraded_replica_gate_witness :
    (∃ r da dd dp wd,
      updateOperatorStatus
        { conditionsPrefix := "Test", operatorNamespace := "operator-ns",
          targetNamespace := "target-ns", targetOperandVersion := "4.9.0",
          operandNamePrefix := "operand" }
        (some { name := "apiserver", generation := 7, observedGeneration := 7,
                replicas := some 3, availableReplicas := 1,
                updatedReplicas := 3 })
        true true [] (.ok []) = .ok r ∧
      r.write.conditions = [da, dd, dp, wd] ∧
      dd.status = ConditionStatus.ctrue ∧ dd.reason = "UnavailablePod" ∧
      dd.message.take 6 = "2 of 3") ∧
    (∃ r da dd dp wd,
      updateOperatorStatus
        { conditionsPrefix := "Test", operatorNamespace := "operator-ns",
          targetNamespace := "target-ns", targetOperandVersion := "4.9.0",
          operandNamePrefix := "operand" }
        (some { name := "apiserver", generation := 7, observedGeneration := 7,
                replicas := some 3, availableReplicas := 4,
                updatedReplicas := 3 })
        true true [] (.ok []) = .ok r ∧
      r.write.conditions = [da, dd, dp, wd] ∧
      dd.status = ConditionStatus.cfalse ∧ dd.reason = "AsExpected") := by
  constructor
  · obtain ⟨r, da, dd, dp, wd, heq, hconds, hge, hlt⟩ :=
      deploymentDegraded_replica_gate
        { conditionsPrefix := "Test", operatorNamespace := "operator-ns",
          targetNamespace := "target-ns", targetOperandVersion := "4.9.0",
          operandNamePrefix := "operand" }
        { name := "apiserver", generation := 7, observedGeneration := 7,
          replicas := some 3, availableReplicas := 1, updatedReplicas := 3 }
        true [] (.ok []) (by simp)
    have hdd := hlt (by decide)
    refine ⟨r, da, dd, dp, wd, heq, hconds, ?_, ?_, ?_⟩
    · rw [hdd]
    · rw [hdd]
    · rw [hdd]
      rfl
  · obtain ⟨r, da, dd, dp, wd, heq, hconds, hge, hlt⟩ :=
      deploymentDegraded_replica_gate
        { conditionsPrefix := "Test", operatorNamespace := "operator-ns",
          targetNamespace := "target-ns", targetOperandVersion := "4.9.0",
          operandNamePrefix := "operand" }
        { name := "apiserver", generation := 7, observedGeneration := 7,
          replicas := some 3, availableReplicas := 4, updatedReplicas := 3 }
        true [] (.ok []) (by simp)
    have hdd := hge (by decide)
    exact ⟨r, da, dd, dp, wd, heq, hconds, by rw [hdd], by rw [hdd]⟩

/-- C5: on a present workload observation, DeploymentProgressing is
True/NewGeneration with a message carrying both the observed and the desired
generation numbers exactly when generation and observedGeneration differ,
and False/AsExpected otherwise. -/
theorem progressing_iff_new_generation (c : Controller) (w : Deployment)
    (cfg : Bool) (errs : List GoErr) (pcs : PodContainersResult)
    (h : ∀ e ∈ errs, e ≠ none) :
    ∃ r da dd dp wd,
      updateOperatorStatus c (some w) cfg true errs pcs = .ok r ∧
      r.write.conditions = [da, dd, dp, wd] ∧
      (w.generation ≠ w.observedGeneration →
        dp = { type := c.conditionsPrefix ++ "Deployment" ++ "Progressing",
               status := ConditionStatus.ctrue, reason := "NewGeneration",
               message := "deployment/" ++ w.name ++ "." ++ c.targetNamespace ++
                 ": observed generation is " ++ toString w.observedGeneration ++
                 ", desired generation is " ++ toString w.generation ++ "." }) ∧
      (w.generation = w.observedGeneration →
        dp = { type := c.conditionsPrefix ++ "Deployment" ++ "Progressing",
               status := ConditionStatus.cfalse, reason := "AsExpected",
               message := "" }) := by
  obtain ⟨wd, hty, heq⟩ := updateOperatorStatus_present c w cfg errs pcs h
  refine ⟨_, _, _, _, wd, heq, rfl, ?_, ?_⟩
  · intro hne
    rw [if_neg hne]
  · intro heqg
    rw [if_pos heqg]

/-- Witness for C5: generation 5 against observed generation 4 progresses
with both numbers in the message. -/
theorem progressing_iff_new_generation_witness :
    ∃ r da dd dp wd,
      updateOperatorStatus
        { conditionsPrefix := "Test", operatorNamespace := "operator-ns",
          targetNamespace := "target-ns", targetOperandVersion := "4.9.0",
          operandNamePrefix := "operand" }
        (some { name := "apiserver", generation := 5, observedGeneration := 4,
                replicas := some 3, availableReplicas := 3,
                updatedReplicas := 3 })
        true true [] (.ok []) = .ok r ∧
      r.write.conditions = [da, dd, dp, wd] ∧
      dp.status = ConditionStatus.ctrue ∧ dp.reason = "NewGeneration" ∧
      dp.message =
        "deployment/apiserver.target-ns: observed generation is 4, " ++
          "desired generation is 5." := by
  obtain ⟨r, da, dd, dp, wd, heq, hconds, hne, heqg⟩ :=
    progressing_iff_new_generation
      { conditionsPrefix := "Test", operatorNamespace := "operator-ns",
        targetNamespace := "target-ns", targetOperandVersion := "4.9.0",
        operandNamePrefix := "operand" }
      { name := "apiserver", generation := 5, observedGeneration := 4,
        replicas := some 3, availableReplicas := 3, updatedReplicas := 3 }
      true [] (.ok []) (by simp)
  have hdp := hne (by decide)
  refine ⟨r, da, dd, dp, wd, heq, hconds, by rw [hdp], by rw [hdp], ?_⟩
  rw [hdp]
  rfl

/-- C7: EnsureAtMostOnePodPerNode returns an error for an empty component
name, a nil selector and empty selector match-labels; on a valid input
(non-empty component, non-nil template labels, non-empty selector
match-labels with the distinct keys of a Go map) it sets the pod template
affinity to a single required anti-affinity term on the hostname topology
key whose match-labels set is the union of the component anti-affinity label
and the selector match-labels. -/
theorem ensureAtMostOnePodPerNode_contract (spec : DeploymentSpec)
    (component : String) (l selLabels : List (String × String))
    (sel : LabelSelector) :
    (component.length = 0 →
      EnsureAtMostOnePodPerNode spec component =
        .ok (spec, some "please specify the component name")) ∧
    (component.length ≠ 0 → spec.template.labels = some l →
      spec.selector = none →
      ∃ spec2, EnsureAtMostOnePodPerNode spec component =
        .ok (spec2, some "deployment is missing spec.selector")) ∧
    (component.length ≠ 0 → spec.template.labels = some l →
      spec.selector = some sel → goMapLen sel.matchLabels = 0 →
      ∃ spec2, EnsureAtMostOnePodPerNode spec component =
        .ok (spec2, some "deployment is missing spec.selector.matchLabels")) ∧
    (component.length ≠ 0 → spec.template.labels = some l →
      spec.selector = some sel → sel.matchLabels = some selLabels →
      selLabels ≠ [] → (selLabels.map Prod.fst).Nodup →
      ∃ spec2 aam,
        EnsureAtMostOnePodPerNode spec component = .ok (spec2, none) ∧
        spec2.template.spec.affinity = some
          { podAntiAffinity := some
              { requiredDuringSchedulingIgnoredDuringExecution :=
                  [ { topologyKey := "kubernetes.io/hostname",
                      labelSelector := some { matchLabels := some aam } } ] } } ∧
        (∀ k v, mapGet aam k = some v ↔
          (mapGet selLabels k = some v ∨
            (mapGet selLabels k = none ∧
              k = component ++ "-anti-affinity" ∧ v = "true")))) := by
  refine ⟨?_, ?_, ?_, ?_⟩
  · intro h0
    simp only [EnsureAtMostOnePodPerNode, if_pos h0]
  · intro hc hl hsel
    simp only [EnsureAtMostOnePodPerNode, hl, hsel, if_neg hc]
    exact ⟨_, rfl⟩
  · intro hc hl hsel hlen
    simp only [EnsureAtMostOnePodPerNode, hl, hsel, if_neg hc]
    rw [if_pos hlen]
    exact ⟨_, rfl⟩
  · intro hc hl hsel hml hne hnd
    have hlen : ¬ goMapLen sel.matchLabels = 0 := by
      rw [hml]
      simpa [goMapLen, List.length_eq_zero] using hne
    simp only [EnsureAtMostOnePodPerNode, hl, hsel, if_neg hc]
    rw [if_neg hlen, hml]
    refine ⟨_, _, rfl, rfl, ?_⟩
    intro k v
    have hfold := mapGet_foldl_set selLabels
      [(component ++ "-anti-affinity", "true")] hnd k
    simp only [Option.getD]
    rw [hfold]
    rcases hs : mapGet selLabels k with _ | u
    · rw [Option.none_or]
      by_cases hk : k = component ++ "-anti-affinity"
      · have : mapGet [(component ++ "-anti-affinity", "true")] k =
            some "true" := by
          unfold mapGet
          rw [List.find?_cons_of_pos _ (by simp [hk])]
          rfl
        rw [this]
        constructor
        · intro hv
          exact Or.inr ⟨rfl, hk, by simpa using hv.symm⟩
        · rintro (hv | ⟨_, _, hv⟩)
          · exact absurd hv (by simp)
          · rw [hv]
      · have : mapGet [(component ++ "-anti-affinity", "true")] k = none := by
          unfold mapGet
          rw [List.find?_cons_of_neg _
            (by simp only [decide_eq_true_eq]; exact fun h2 => hk h2.symm)]
          rfl
        rw [this]
        constructor
        · intro hv
          exact absurd hv (by simp)
        · rintro (hv | ⟨_, hk2, _⟩)
          · exact absurd hv (by simp)
          · exact absurd hk2 hk
    · rw [Option.or_some]
      constructor
      · intro hv
        exact Or.inl hv
      · rintro (hv | ⟨hn, _, _⟩)
        · exact hv
        · exact absurd hn (by simp)

end Workload
